import Mathlib

/-!
Shallow embedding of `portfolio_chatbot.py` (a single-file portfolio
chatbot): the knowledge document, skills formatting, prompt construction,
focus resolution, message assembly and the per-turn session update, together
with theorems settling the specification claims about those functions.

Python dictionaries obtained from JSON are modelled as structures of
optional fields (`.get` on an absent key yields `None`, modelled as `none`);
rendering an optional text into an f-string is modelled by `pyStr`, which
renders `none` as the text "None", exactly as Python's `str(None)` does.
-/

namespace PortfolioChatbot

/-- Rendering of a possibly-absent string into an f-string:
Python prints `None` for an absent value. -/
def pyStr : Option String → String
  | some s => s
  | none => "None"

/-- Python's `sep.join(items)`. -/
def pyJoin (sep : String) : List String → String
  | [] => ""
  | [s] => s
  | s :: rest => s ++ sep ++ pyJoin sep rest

/-- Python's `s.replace('_', ' ')` on the character list of a string. -/
def underscoreToSpace (s : String) : String :=
  String.mk (s.data.map (fun c => if c = '_' then ' ' else c))

/-- Worker for Python's `str.title()`: the boolean records whether the
previous character was alphabetic (a cased letter, ASCII model). -/
def titleAux : Bool → List Char → List Char
  | _, [] => []
  | prevAlpha, c :: cs =>
    if c.isAlpha then
      (if prevAlpha then c.toLower else c.toUpper) :: titleAux true cs
    else
      c :: titleAux false cs

/-- Python's `str.title()` (ASCII model): each alphabetic character that
does not follow an alphabetic character is uppercased, every other
alphabetic character is lowercased. -/
def pyTitle (s : String) : String :=
  String.mk (titleAux false s.data)

/-- One project entry of the knowledge document (a JSON object whose keys
are all read with `.get`, hence every field optional). -/
structure Project where
  name : Option String
  type : Option String
  category : Option String
  problem : Option String
  solution : Option String
  tools : Option String
  outcome : Option String
deriving DecidableEq, Repr

/-- The knowledge document (`portfolio_knowledge.json`), read with `.get`:
every field optional; `skills` is an insertion-ordered mapping from
category key to skill list, `projects` an ordered sequence. -/
structure Profile where
  name : Option String
  summary : Option String
  education : Option String
  current_status : Option String
  goal : Option String
  skills : Option (List (String × List String))
  projects : Option (List Project)
deriving DecidableEq, Repr

/-- The empty JSON object `\x7b\x7d` seen through `.get`: every key absent. -/
def emptyProfile : Profile :=
  ⟨none, none, none, none, none, none, none⟩

/-- A project object with no keys at all. -/
def emptyProject : Project :=
  ⟨none, none, none, none, none, none, none⟩

/-- `portfolio.get('skills', \x7b\x7d)`. -/
def getSkills (portfolio : Profile) : List (String × List String) :=
  portfolio.skills.getD []

/-- `portfolio.get('projects', [])`. -/
def getProjects (portfolio : Profile) : List Project :=
  portfolio.projects.getD []

/-- `format_skills` from the source: loops over the mapping in insertion
order, appending one rendered line per category to `lines`, then joins the
lines with a newline. -/
def format_skills (skills_dict : List (String × List String)) : String :=
  pyJoin "\n"
    (skills_dict.foldl
      (fun lines cs =>
        lines ++ [pyTitle (underscoreToSpace cs.1) ++ ": " ++ pyJoin ", " cs.2])
      [])

/-- Python truthiness of a dictionary modelled as a `Project`:
an object with no keys is falsy. -/
def projectTruthy (p : Project) : Bool :=
  p.name.isSome || p.type.isSome || p.category.isSome || p.problem.isSome ||
    p.solution.isSome || p.tools.isSome || p.outcome.isSome

/-- The `base_prompt` f-string of `create_system_prompt` (lines 40-58). -/
def base_prompt (portfolio : Profile) : String :=
  "\nYou are an AI Portfolio Assistant representing " ++ pyStr portfolio.name ++
    ".\n\nProfile Summary:\n" ++ pyStr portfolio.summary ++
    "\n\nEducation: " ++ pyStr portfolio.education ++
    "\nCurrent Status: " ++ pyStr portfolio.current_status ++
    "\nCareer Goal: " ++ pyStr portfolio.goal ++
    "\n\nSkills:\n" ++ format_skills (getSkills portfolio) ++
    "\n\nRules:\n- Answer like a real interview candidate\n- Be confident, clear, and honest\n- Do NOT invent information\n- Use simple English or Hinglish\n"

/-- The focused-mode addition to the prompt (lines 61-84). -/
def focus_block (selected_project : Project) : String :=
  "\nSelected Project (Explain in detail):\n\nProject Name: " ++ pyStr selected_project.name ++
    "\nType: " ++ pyStr selected_project.type ++
    "\nCategory: " ++ pyStr selected_project.category ++
    "\n\nProblem:\n" ++ pyStr selected_project.problem ++
    "\n\nSolution:\n" ++ pyStr selected_project.solution ++
    "\n\nTools Used:\n" ++ pyStr selected_project.tools ++
    "\n\nOutcome:\n" ++ pyStr selected_project.outcome ++
    "\n\nInstructions:\n- Use STAR method if possible\n- Explain business impact\n- Answer follow-up technical questions\n"

/-- The bulleted project list of broad mode (lines 86-88):
`"- <name> (<type>)"` per project, joined by newlines. -/
def project_list (portfolio : Profile) : String :=
  pyJoin "\n"
    ((getProjects portfolio).map
      (fun p => "- " ++ pyStr p.name ++ " (" ++ pyStr p.type ++ ")"))

/-- The broad-mode addition to the prompt (lines 89-96). -/
def broad_block (portfolio : Profile) : String :=
  "\nProjects:\n" ++ project_list portfolio ++
    "\n\nInstructions:\n- Answer about skills, projects, resume, career goals\n- Suggest selecting a project for deep explanation\n"

/-- `create_system_prompt` from the source. The Python guard is
`if selected_project:`, truthiness of the optional dictionary: `None` and
the empty object both take the broad branch. -/
def create_system_prompt (portfolio : Profile) (selected_project : Option Project) : String :=
  match selected_project with
  | some sp =>
    if projectTruthy sp then base_prompt portfolio ++ focus_block sp
    else base_prompt portfolio ++ broad_block portfolio
  | none => base_prompt portfolio ++ broad_block portfolio

/-- The linear search of `get_ai_response` lines 104-107: first project
whose `name` key equals the selected name, `break` on the first hit. -/
def find_selected (sel : String) : List Project → Option Project
  | [] => none
  | p :: ps => if p.name = some sel then some p else find_selected sel ps

/-- Focus resolution of `get_ai_response` lines 101-107: the stored
selection is read with Python truthiness (absent or empty text selects
nothing), then the project list is searched linearly. -/
def resolve_focus (sel : Option String) (projects : List Project) : Option Project :=
  match sel with
  | some s => if s = "" then none else find_selected s projects
  | none => none

/-- A history entry as stored in `st.session_state.chat_history`:
role, content and an advisory timestamp. -/
structure ChatMessage where
  role : String
  content : String
  time : String
deriving DecidableEq, Repr

/-- A message as sent to the completion API: role and content only. -/
structure ApiMessage where
  role : String
  content : String
deriving DecidableEq, Repr

/-- The message assembly of `get_ai_response` lines 109-114: system
instruction first, then each history entry reduced to role and content,
then the new user message. -/
def assemble_messages (user_message : String) (chat_history : List ChatMessage)
    (portfolio : Profile) (sel : Option String) : List ApiMessage :=
  let selected_project := resolve_focus sel (getProjects portfolio)
  ⟨"system", create_system_prompt portfolio selected_project⟩ ::
    (chat_history.map (fun m => (⟨m.role, m.content⟩ : ApiMessage)) ++
      [⟨"user", user_message⟩])

/-- The per-session mutable state kept in `st.session_state`. -/
structure SessionState where
  chat_history : List ChatMessage
  selected_project : Option String
deriving DecidableEq, Repr

/-- The selectbox handling of `main` lines 141-146: the stored selection is
overwritten wholesale, the sentinel choice clearing it. -/
def select_project (sess : SessionState) (selected : String) : SessionState :=
  { sess with
    selected_project :=
      if selected = "-- No Project Selected --" then none else some selected }

/-- `[p.get("name") for p in portfolio.get("projects", [])]` (line 139). -/
def project_names (portfolio : Profile) : List (Option String) :=
  (getProjects portfolio).map Project.name

/-- The request built by one turn of `main` lines 159-170: the user message
is appended to the history first, then `get_ai_response` is called with
`chat_history[:-1]`, the history before this turn. -/
def turn_request (sess : SessionState) (portfolio : Profile)
    (user_input : String) (t1 : String) : List ApiMessage :=
  assemble_messages user_input
    (List.dropLast (sess.chat_history ++ [⟨"user", user_input, t1⟩]))
    portfolio sess.selected_project

/-- One turn of `main` lines 159-178. The completion collaborator is a
parameter returning `none` when the API call raises; on failure the raise
propagates with the user message already appended, on success the assistant
reply is appended after it. `t1`, `t2` are the two timestamps taken. -/
def run_turn (complete : List ApiMessage → Option String) (sess : SessionState)
    (portfolio : Profile) (user_input : String) (t1 t2 : String) :
    Option String × SessionState :=
  let h1 : List ChatMessage := sess.chat_history ++ [⟨"user", user_input, t1⟩]
  match complete (turn_request sess portfolio user_input t1) with
  | some reply =>
    (some reply, { sess with chat_history := h1 ++ [⟨"assistant", reply, t2⟩] })
  | none => (none, { sess with chat_history := h1 })

/-- Outcome of `load_portfolio`: either a profile value is returned, or the
call raised an exception. -/
inductive LoadOutcome where
  | ok (portfolio : Profile)
  | raised
deriving DecidableEq, Repr

/-- `load_portfolio` lines 24-29. The backing file is modelled as
`none` when absent, `some none` when present but not parseable as JSON
(`json.load` raises), and `some (some p)` when it parses to `p`. When the
file is absent the source shows an error message and returns the empty
object `\x7b\x7d`. -/
def load_portfolio (file : Option (Option Profile)) : LoadOutcome :=
  match file with
  | none => .ok emptyProfile
  | some none => .raised
  | some (some p) => .ok p

/-- `t` matches at the head of `s` (character lists). -/
def leadsWith : List Char → List Char → Bool
  | [], _ => true
  | _ :: _, [] => false
  | c :: t, d :: s => c = d && leadsWith t s

/-- `t` occurs contiguously somewhere inside `s` (character lists). -/
def occursIn (t : List Char) : List Char → Bool
  | [] => leadsWith t []
  | d :: s => leadsWith t (d :: s) || occursIn t s

/-- The text `t` occurs contiguously inside the text `s`
(the meaning of "contains" in the claims). -/
def strOccurs (t s : String) : Bool :=
  occursIn t.data s.data

/-- Erasing the deep-explanation fields of a project, keeping the fields
broad mode reads. -/
def scrubProject (p : Project) : Project :=
  { p with problem := none, solution := none, outcome := none }

/-- Erasing the deep-explanation fields of every project of a profile. -/
def scrubProjects (portfolio : Profile) : Profile :=
  { portfolio with
    projects := portfolio.projects.map (fun l => l.map scrubProject) }

/-- A sample web project named "X". -/
def projX : Project :=
  ⟨some "X", some "web", none, none, none, none, none⟩

/-- A second project also named "X", of a different type. -/
def projX2 : Project :=
  ⟨some "X", some "cv", none, none, none, none, none⟩

/-- A project whose problem text coincides with its own name. -/
def projXw : Project :=
  ⟨some "X", some "w", none, some "X", none, none, none⟩

/-- A profile whose single project has problem text equal to its name. -/
def profileP0 : Profile :=
  ⟨none, none, none, none, none, none, some [projXw]⟩

/-- A project whose problem text coincides with its own bullet line. -/
def projXdup : Project :=
  ⟨some "X", some "w", none, some "- X (w)", none, none, none⟩

/-- A profile whose single project has problem text equal to the bulleted
project list. -/
def profileP1 : Profile :=
  ⟨none, none, none, none, none, none, some [projXdup]⟩

/-- A project with every field present. -/
def projFull : Project :=
  ⟨some "N", some "T", some "C", some "PR", some "SO", some "TL", some "OC"⟩

/-- A profile whose single project has every field present. -/
def profileP2 : Profile :=
  ⟨none, none, none, none, none, none, some [projFull]⟩

/- ---------------------------------------------------------------------- -/
/- Helper lemmas. -/
/- ---------------------------------------------------------------------- -/

theorem leadsWith_self_append (t b : List Char) : leadsWith t (t ++ b) = true := by
  induction t with
  | nil => rfl
  | cons c t ih => simp [leadsWith, ih]

theorem leadsWith_append {t s : List Char} (h : leadsWith t s = true) (b : List Char) :
    leadsWith t (s ++ b) = true := by
  induction t generalizing s with
  | nil => rfl
  | cons c t ih =>
    cases s with
    | nil => simp [leadsWith] at h
    | cons d s =>
      simp only [leadsWith, Bool.and_eq_true] at h
      simp [leadsWith, h.1, ih h.2]

theorem occursIn_of_leadsWith {t s : List Char} (h : leadsWith t s = true) :
    occursIn t s = true := by
  cases s with
  | nil => exact h
  | cons d s => simp [occursIn, h]

theorem occursIn_cons {t s : List Char} (h : occursIn t s = true) (c : Char) :
    occursIn t (c :: s) = true := by
  simp [occursIn, h]

theorem occursIn_append_left {t s : List Char} (h : occursIn t s = true)
    (a : List Char) : occursIn t (a ++ s) = true := by
  induction a with
  | nil => exact h
  | cons c a ih => exact occursIn_cons ih c

theorem occursIn_append_right {t s : List Char} (h : occursIn t s = true)
    (b : List Char) : occursIn t (s ++ b) = true := by
  induction s with
  | nil =>
    cases t with
    | nil => exact occursIn_of_leadsWith rfl
    | cons c t => simp [occursIn, leadsWith] at h
  | cons d s ih =>
    simp only [occursIn, Bool.or_eq_true] at h
    rcases h with h | h
    · exact occursIn_of_leadsWith (leadsWith_append h b)
    · exact occursIn_cons (ih h) d

theorem occursIn_self_append (t b : List Char) : occursIn t (t ++ b) = true :=
  occursIn_of_leadsWith (leadsWith_self_append t b)

theorem occursIn_mid (a t b : List Char) : occursIn t (a ++ t ++ b) = true := by
  have h := occursIn_self_append t b
  simpa [List.append_assoc] using occursIn_append_left h a

theorem leadsWith_exists {t s : List Char} (h : leadsWith t s = true) :
    ∃ b, s = t ++ b := by
  induction t generalizing s with
  | nil => exact ⟨s, rfl⟩
  | cons c t ih =>
    cases s with
    | nil => simp [leadsWith] at h
    | cons d s =>
      simp only [leadsWith, Bool.and_eq_true, decide_eq_true_eq] at h
      obtain ⟨b, hb⟩ := ih h.2
      exact ⟨b, by simp [h.1, hb]⟩

theorem occursIn_exists {t s : List Char} (h : occursIn t s = true) :
    ∃ a b, s = a ++ t ++ b := by
  induction s with
  | nil =>
    cases t with
    | nil => exact ⟨[], [], rfl⟩
    | cons c t => simp [occursIn, leadsWith] at h
  | cons d s ih =>
    simp only [occursIn, Bool.or_eq_true] at h
    rcases h with h | h
    · obtain ⟨b, hb⟩ := leadsWith_exists h
      exact ⟨[], b, by simp [hb]⟩
    · obtain ⟨a, b, hab⟩ := ih h
      exact ⟨d :: a, b, by simp [hab]⟩

theorem occursIn_trans {u t s : List Char} (h1 : occursIn u t = true)
    (h2 : occursIn t s = true) : occursIn u s = true := by
  obtain ⟨a, b, hab⟩ := occursIn_exists h2
  subst hab
  have := occursIn_append_left (occursIn_append_right h1 b) a
  simpa [List.append_assoc] using this

theorem strOccurs_mono {t s : String} (h : strOccurs t s = true) (a b : String) :
    strOccurs t (a ++ s ++ b) = true := by
  simp only [strOccurs, String.data_append] at *
  have := occursIn_append_left (occursIn_append_right h b.data) a.data
  simpa [List.append_assoc] using this

theorem pyJoin_mem {x : String} {l : List String} (hx : x ∈ l) (sep : String) :
    strOccurs x (pyJoin sep l) = true := by
  induction l with
  | nil => cases hx
  | cons y rest ih =>
    cases rest with
    | nil =>
      rcases List.mem_singleton.mp hx with rfl
      simpa [pyJoin, strOccurs] using occursIn_self_append x.data []
    | cons z rs =>
      rcases List.mem_cons.mp hx with rfl | hx'
      · simpa [pyJoin, strOccurs, String.data_append, List.append_assoc] using
          occursIn_self_append x.data (sep.data ++ (pyJoin sep (z :: rs)).data)
      · have h := ih hx'
        simp only [pyJoin, strOccurs, String.data_append, List.append_assoc]
        have := occursIn_append_left h (y.data ++ sep.data)
        simpa [List.append_assoc] using this

theorem foldl_append_singleton {α β : Type} (f : α → β) :
    ∀ (l : List α) (acc : List β),
      l.foldl (fun lines x => lines ++ [f x]) acc = acc ++ l.map f := by
  intro l
  induction l with
  | nil => simp
  | cons x l ih => intro acc; simp [List.foldl, ih]

theorem strOccurs_prepend {t s : String} (h : strOccurs t s = true) (a : String) :
    strOccurs t (a ++ s) = true := by
  simp only [strOccurs, String.data_append]
  exact occursIn_append_left h a.data

theorem strOccurs_extend {t s : String} (h : strOccurs t s = true) (b : String) :
    strOccurs t (s ++ b) = true := by
  simp only [strOccurs, String.data_append]
  exact occursIn_append_right h b.data

theorem scrubProject_name (p : Project) : (scrubProject p).name = p.name := rfl

theorem scrubProject_type (p : Project) : (scrubProject p).type = p.type := rfl

theorem find_selected_eq_none {s : String} {ps : List Project}
    (h : ∀ p ∈ ps, p.name ≠ some s) : find_selected s ps = none := by
  induction ps with
  | nil => rfl
  | cons p ps ih =>
    simp only [find_selected]
    rw [if_neg (h p (List.mem_cons_self p ps))]
    exact ih (fun q hq => h q (List.mem_cons_of_mem p hq))

theorem map_bullet_scrub (l : List Project) :
    (l.map scrubProject).map
        (fun p => "- " ++ pyStr p.name ++ " (" ++ pyStr p.type ++ ")") =
      l.map (fun p => "- " ++ pyStr p.name ++ " (" ++ pyStr p.type ++ ")") := by
  induction l with
  | nil => rfl
  | cons p l ih =>
    simp only [List.map_cons, ih]
    rfl

theorem project_list_scrub (portfolio : Profile) :
    project_list (scrubProjects portfolio) = project_list portfolio := by
  cases portfolio with
  | mk nm sm ed cs gl sk pj =>
    cases pj with
    | none => rfl
    | some l =>
      simp only [project_list, getProjects, scrubProjects, Option.map_some,
        Option.getD_some]
      exact congrArg (pyJoin "\n") (map_bullet_scrub l)

theorem base_prompt_scrub (portfolio : Profile) :
    base_prompt (scrubProjects portfolio) = base_prompt portfolio := by
  cases portfolio
  rfl

theorem broad_block_scrub (portfolio : Profile) :
    broad_block (scrubProjects portfolio) = broad_block portfolio := by
  simp only [broad_block, project_list_scrub]

/- ---------------------------------------------------------------------- -/
/- Claim theorems. -/
/- ---------------------------------------------------------------------- -/

/-- Claim C1: for every session history and user input, a successful turn
appends exactly 2 messages to the history, first the user message then the
assistant message; on a failing completion only the user message is
appended and no assistant message is appended. -/
theorem claim_C1 (complete : List ApiMessage → Option String) (sess : SessionState)
    (portfolio : Profile) (u t1 t2 : String) :
    (∀ reply, (run_turn complete sess portfolio u t1 t2).1 = some reply →
      (run_turn complete sess portfolio u t1 t2).2.chat_history =
        sess.chat_history ++ [⟨"user", u, t1⟩, ⟨"assistant", reply, t2⟩]) ∧
    ((run_turn complete sess portfolio u t1 t2).1 = none →
      (run_turn complete sess portfolio u t1 t2).2.chat_history =
        sess.chat_history ++ [⟨"user", u, t1⟩]) := by
  cases h : complete (turn_request sess portfolio u t1) with
  | some r =>
    refine ⟨?_, ?_⟩
    · intro reply hr
      simp only [run_turn, h, Option.some.injEq] at hr ⊢
      subst hr
      simp [List.append_assoc]
    · intro hn
      simp [run_turn, h] at hn
  | none =>
    refine ⟨?_, ?_⟩
    · intro reply hr
      simp [run_turn, h] at hr
    · intro _
      simp [run_turn, h]

/-- Claim C1 witness: a turn with a succeeding completion appends the user
then the assistant message; a turn with a failing completion appends only
the user message. -/
theorem claim_C1_witness :
    (run_turn (fun _ => some "ok") ⟨[], none⟩ emptyProfile "hi" "a" "b").2.chat_history =
      [⟨"user", "hi", "a"⟩, ⟨"assistant", "ok", "b"⟩] ∧
    (run_turn (fun _ => none) ⟨[], none⟩ emptyProfile "hi" "a" "b").2.chat_history =
      [⟨"user", "hi", "a"⟩] := by
  constructor
  · exact (claim_C1 (fun _ => some "ok") ⟨[], none⟩ emptyProfile "hi" "a" "b").1 "ok" rfl
  · exact (claim_C1 (fun _ => none) ⟨[], none⟩ emptyProfile "hi" "a" "b").2 rfl

/-- Claim C2: the message sequence sent to the completion collaborator is
exactly the system instruction (built from the resolved focus), then every
message of the prior history in order reduced to role and content
(timestamps dropped), then the new user message last. -/
theorem claim_C2 (sess : SessionState) (portfolio : Profile) (u t1 : String) :
    turn_request sess portfolio u t1 =
      (⟨"system", create_system_prompt portfolio
          (resolve_focus sess.selected_project (getProjects portfolio))⟩ :
        ApiMessage) ::
        (sess.chat_history.map (fun m => (⟨m.role, m.content⟩ : ApiMessage)) ++
          [⟨"user", u⟩]) := by
  simp [turn_request, assemble_messages, List.dropLast_concat]

/-- Claim C5 counterexample: when the backing document is absent, loading
does not fail; it returns the empty profile, exactly the partial result the
claim rules out. -/
theorem claim_C5_counterexample :
    load_portfolio none = LoadOutcome.ok emptyProfile := rfl

/-- Claim C5 (amended): loading raises only when the backing document
cannot be parsed; an absent document is not a load failure: after showing
an error message, load returns the empty profile, and the caller `main`
stops on a falsy profile before any conversation. -/
theorem claim_C5 :
    load_portfolio none = LoadOutcome.ok emptyProfile ∧
    load_portfolio (some none) = LoadOutcome.raised ∧
    ∀ p : Profile, load_portfolio (some (some p)) = LoadOutcome.ok p :=
  ⟨rfl, rfl, fun _ => rfl⟩

/-- Claim C6: the skills block renders one line per category in the
mapping's insertion order, each line humanized-key, colon, comma-joined
skills; the keys "current_status" and "Current_Status" both render the
header "Current Status", so key casing does not affect the output. -/
theorem claim_C6 (skills_dict : List (String × List String)) (l : List String) :
    format_skills skills_dict =
      pyJoin "\n" (skills_dict.map
        (fun cs => pyTitle (underscoreToSpace cs.1) ++ ": " ++ pyJoin ", " cs.2)) ∧
    pyTitle (underscoreToSpace "current_status") = "Current Status" ∧
    pyTitle (underscoreToSpace "Current_Status") = "Current Status" ∧
    format_skills [("current_status", l)] = format_skills [("Current_Status", l)] := by
  refine ⟨?_, by decide, by decide, ?_⟩
  · simp [format_skills, foldl_append_singleton]
  · show pyTitle (underscoreToSpace "current_status") ++ ": " ++ pyJoin ", " l =
      pyTitle (underscoreToSpace "Current_Status") ++ ": " ++ pyJoin ", " l
    rw [show pyTitle (underscoreToSpace "current_status") =
      pyTitle (underscoreToSpace "Current_Status") from by decide]

/-- Claim C7: a selected focus name matching no project (case-sensitive
exact equality on the name field) resolves to no focus without an error,
regardless of any previously stored selection: the turn proceeds in broad
mode. -/
theorem claim_C7 (sess : SessionState) (projects : List Project) (s : String)
    (hsel : s ≠ "-- No Project Selected --")
    (hmiss : ∀ p ∈ projects, p.name ≠ some s) :
    resolve_focus ((select_project sess s).selected_project) projects = none := by
  simp only [select_project]
  rw [if_neg hsel]
  by_cases he : s = ""
  · simp [resolve_focus, he]
  · simp [resolve_focus, he, find_selected_eq_none hmiss]

/-- Claim C7 witness: with a valid focus "X" previously stored, selecting
the nonexistent name "Y" resolves to no focus. -/
theorem claim_C7_witness :
    resolve_focus ((select_project ⟨[], some "X"⟩ "Y").selected_project) [projX] = none :=
  claim_C7 ⟨[], some "X"⟩ [projX] "Y" (by decide) (by decide)

/-- Claim C9: focus resolution returns the first project in sequence order
whose name matches, so with duplicate names the linear search stops at the
first match. -/
theorem claim_C9 (pre post : List Project) (p : Project) (s : String)
    (hs : s ≠ "") (hpre : ∀ q ∈ pre, q.name ≠ some s) (hp : p.name = some s) :
    resolve_focus (some s) (pre ++ p :: post) = some p := by
  simp only [resolve_focus]
  rw [if_neg hs]
  induction pre with
  | nil => simp [find_selected, hp]
  | cons q pre ih =>
    simp only [List.cons_append, find_selected]
    rw [if_neg (hpre q (List.mem_cons_self q pre))]
    exact ih (fun r hr => hpre r (List.mem_cons_of_mem q hr))

/-- Claim C9 witness: with two distinct projects both named "X", resolution
returns the first one. -/
theorem claim_C9_witness :
    resolve_focus (some "X") [projX, projX2] = some projX :=
  claim_C9 [] [projX2] projX "X" (by decide) (by decide) rfl

/-- Claim C10: a profile with a missing or empty projects sequence yields
an empty bulleted project list, an empty project-name listing, a resolved
focus of none, and a broad-mode prompt whose projects section is empty;
nothing fails. -/
theorem claim_C10 (portfolio : Profile) (sel : Option String)
    (h : getProjects portfolio = []) :
    project_list portfolio = "" ∧
    project_names portfolio = [] ∧
    resolve_focus sel (getProjects portfolio) = none ∧
    create_system_prompt portfolio none =
      base_prompt portfolio ++
        "\nProjects:\n\n\nInstructions:\n- Answer about skills, projects, resume, career goals\n- Suggest selecting a project for deep explanation\n" := by
  have hpl : project_list portfolio = "" := by simp [project_list, h, pyJoin]
  refine ⟨hpl, ?_, ?_, ?_⟩
  · simp [project_names, h]
  · cases sel with
    | none => rfl
    | some s =>
      by_cases he : s = ""
      · simp [resolve_focus, he]
      · simp [resolve_focus, he, h, find_selected]
  · simp only [create_system_prompt, broad_block, hpl]
    congr 1

set_option maxRecDepth 20000 in
/-- Claim C3 counterexample: in the profile whose single project has name
"X" and problem field text "X", the broad-mode prompt does contain a
problem field text, so the claim as stated fails. -/
theorem claim_C3_counterexample :
    (getProjects profileP0).map Project.problem = [some "X"] ∧
    strOccurs "X" (create_system_prompt profileP0 none) = true := by
  refine ⟨rfl, by decide⟩

/-- Claim C3 (amended): the broad-mode prompt contains every project of
the profile rendered as its "- name (type)" bullet line, and the prompt
does not read the problem, solution or outcome field of any project:
erasing all of them leaves the prompt unchanged (a field text can still
occur when it coincides with other rendered text, as the counterexample
shows). -/
theorem claim_C3 (portfolio : Profile) (p : Project) (n t : String)
    (hp : p ∈ getProjects portfolio) (hn : p.name = some n) (ht : p.type = some t) :
    strOccurs ("- " ++ n ++ " (" ++ t ++ ")") (create_system_prompt portfolio none) = true ∧
    create_system_prompt (scrubProjects portfolio) none =
      create_system_prompt portfolio none := by
  constructor
  · have hmem : ("- " ++ pyStr p.name ++ " (" ++ pyStr p.type ++ ")") ∈
        (getProjects portfolio).map
          (fun q => "- " ++ pyStr q.name ++ " (" ++ pyStr q.type ++ ")") :=
      List.mem_map_of_mem _ hp
    rw [hn, ht] at hmem
    have hpl : strOccurs ("- " ++ n ++ " (" ++ t ++ ")") (project_list portfolio) = true := by
      have h := pyJoin_mem hmem "\n"
      simpa [pyStr, project_list] using h
    show strOccurs _ (base_prompt portfolio ++ broad_block portfolio) = true
    exact strOccurs_prepend
      (strOccurs_extend (strOccurs_prepend hpl "\nProjects:\n") _)
      (base_prompt portfolio)
  · show base_prompt (scrubProjects portfolio) ++ broad_block (scrubProjects portfolio) =
      base_prompt portfolio ++ broad_block portfolio
    rw [base_prompt_scrub, broad_block_scrub]

/-- Claim C3 witness: the profile with one project named "X" of type "w"
contains the bullet "- X (w)" in its broad prompt, and erasing the deep
fields leaves the prompt unchanged. -/
theorem claim_C3_witness :
    strOccurs ("- " ++ "X" ++ " (" ++ "w" ++ ")") (create_system_prompt profileP0 none) = true ∧
    create_system_prompt (scrubProjects profileP0) none =
      create_system_prompt profileP0 none :=
  claim_C3 profileP0 projXw "X" "w" (by decide) rfl rfl

set_option maxRecDepth 20000 in
/-- Claim C4 counterexample: in the profile whose single project has
problem text "- X (w)", the bulleted list of all projects is exactly
"- X (w)" and the focused prompt does contain it, so the claim as stated
fails. -/
theorem claim_C4_counterexample :
    project_list profileP1 = "- X (w)" ∧
    strOccurs (project_list profileP1)
      (create_system_prompt profileP1 (some projXdup)) = true := by
  refine ⟨by decide, by decide⟩

/-- Claim C4 (amended): with a focus project whose problem, solution,
tools and outcome fields are present, the focused prompt contains each of
those texts verbatim, and the project-list block is not appended: the
focused prompt does not read the profile's projects sequence at all
(though the list text may incidentally occur when a field coincides with
it, as the counterexample shows). -/
theorem claim_C4 (portfolio : Profile) (F : Project) (pr so tl oc : String)
    (q : Option (List Project))
    (hF : F ∈ getProjects portfolio)
    (hpr : F.problem = some pr) (hso : F.solution = some so)
    (htl : F.tools = some tl) (hoc : F.outcome = some oc) :
    strOccurs pr (create_system_prompt portfolio (some F)) = true ∧
    strOccurs so (create_system_prompt portfolio (some F)) = true ∧
    strOccurs tl (create_system_prompt portfolio (some F)) = true ∧
    strOccurs oc (create_system_prompt portfolio (some F)) = true ∧
    create_system_prompt { portfolio with projects := q } (some F) =
      create_system_prompt portfolio (some F) := by
  have htr : projectTruthy F = true := by
    simp [projectTruthy, hpr]
  have hcp : create_system_prompt portfolio (some F) =
      base_prompt portfolio ++ focus_block F := by
    simp [create_system_prompt, htr]
  refine ⟨?_, ?_, ?_, ?_, ?_⟩
  · rw [hcp]
    apply strOccurs_prepend
    simp only [focus_block, hpr, pyStr, strOccurs, String.data_append, List.append_assoc]
    repeat
      first
        | exact occursIn_self_append _ _
        | apply occursIn_append_left
  · rw [hcp]
    apply strOccurs_prepend
    simp only [focus_block, hso, pyStr, strOccurs, String.data_append, List.append_assoc]
    repeat
      first
        | exact occursIn_self_append _ _
        | apply occursIn_append_left
  · rw [hcp]
    apply strOccurs_prepend
    simp only [focus_block, htl, pyStr, strOccurs, String.data_append, List.append_assoc]
    repeat
      first
        | exact occursIn_self_append _ _
        | apply occursIn_append_left
  · rw [hcp]
    apply strOccurs_prepend
    simp only [focus_block, hoc, pyStr, strOccurs, String.data_append, List.append_assoc]
    repeat
      first
        | exact occursIn_self_append _ _
        | apply occursIn_append_left
  · cases portfolio with
    | mk nm sm ed cs gl sk pj =>
      simp [create_system_prompt, htr, base_prompt, getSkills]

/-- Claim C4 witness: for the profile whose single project has every field
present, the focused prompt contains the four deep field texts, and
replacing the projects sequence does not change the focused prompt. -/
theorem claim_C4_witness :
    strOccurs "PR" (create_system_prompt profileP2 (some projFull)) = true ∧
    strOccurs "SO" (create_system_prompt profileP2 (some projFull)) = true ∧
    strOccurs "TL" (create_system_prompt profileP2 (some projFull)) = true ∧
    strOccurs "OC" (create_system_prompt profileP2 (some projFull)) = true ∧
    create_system_prompt { profileP2 with projects := none } (some projFull) =
      create_system_prompt profileP2 (some projFull) :=
  claim_C4 profileP2 projFull "PR" "SO" "TL" "OC" none (by decide) rfl rfl rfl rfl

set_option maxRecDepth 100000 in
/-- Claim C8: prompt building never fails on missing content: a profile
with no name still renders, with the placeholder text "None" in the
framing line, and the prompt for the empty profile (broad mode) and for a
focus project with only a name (focused mode) evaluate to complete texts
with "None" for each missing field and empty skills and projects blocks. -/
theorem claim_C8 (portfolio : Profile) (hname : portfolio.name = none) :
    strOccurs "You are an AI Portfolio Assistant representing None."
      (create_system_prompt portfolio none) = true ∧
    create_system_prompt emptyProfile none =
      "\nYou are an AI Portfolio Assistant representing None.\n\nProfile Summary:\nNone\n\nEducation: None\nCurrent Status: None\nCareer Goal: None\n\nSkills:\n\n\nRules:\n- Answer like a real interview candidate\n- Be confident, clear, and honest\n- Do NOT invent information\n- Use simple English or Hinglish\n\nProjects:\n\n\nInstructions:\n- Answer about skills, projects, resume, career goals\n- Suggest selecting a project for deep explanation\n" ∧
    create_system_prompt emptyProfile (some ⟨some "P", none, none, none, none, none, none⟩) =
      "\nYou are an AI Portfolio Assistant representing None.\n\nProfile Summary:\nNone\n\nEducation: None\nCurrent Status: None\nCareer Goal: None\n\nSkills:\n\n\nRules:\n- Answer like a real interview candidate\n- Be confident, clear, and honest\n- Do NOT invent information\n- Use simple English or Hinglish\n\nSelected Project (Explain in detail):\n\nProject Name: P\nType: None\nCategory: None\n\nProblem:\nNone\n\nSolution:\nNone\n\nTools Used:\nNone\n\nOutcome:\nNone\n\nInstructions:\n- Use STAR method if possible\n- Explain business impact\n- Answer follow-up technical questions\n" := by
  refine ⟨?_, by decide, by decide⟩
  · have heq : base_prompt portfolio =
        ("\nYou are an AI Portfolio Assistant representing " ++ "None" ++
          ".\n\nProfile Summary:\n") ++
          (pyStr portfolio.summary ++
            ("\n\nEducation: " ++ (pyStr portfolio.education ++
              ("\nCurrent Status: " ++ (pyStr portfolio.current_status ++
                ("\nCareer Goal: " ++ (pyStr portfolio.goal ++
                  ("\n\nSkills:\n" ++ (format_skills (getSkills portfolio) ++
                    "\n\nRules:\n- Answer like a real interview candidate\n- Be confident, clear, and honest\n- Do NOT invent information\n- Use simple English or Hinglish\n"))))))))) := by
      simp [base_prompt, hname, pyStr, String.append_assoc]
    have hbase : strOccurs "You are an AI Portfolio Assistant representing None."
        (base_prompt portfolio) = true := by
      rw [heq]
      exact strOccurs_extend (by decide) _
    show strOccurs _ (base_prompt portfolio ++ broad_block portfolio) = true
    exact strOccurs_extend hbase (broad_block portfolio)

/-- Claim C8 witness: the empty profile has no name, and all three
conclusions hold for it. -/
theorem claim_C8_witness :
    strOccurs "You are an AI Portfolio Assistant representing None."
      (create_system_prompt emptyProfile none) = true :=
  (claim_C8 emptyProfile rfl).1

/-- Claim C10 witness: the empty profile has no projects entry, and all
four conclusions hold for it. -/
theorem claim_C10_witness :
    project_list emptyProfile = "" ∧
    project_names emptyProfile = [] ∧
    resolve_focus (some "X") (getProjects emptyProfile) = none ∧
    create_system_prompt emptyProfile none =
      base_prompt emptyProfile ++
        "\nProjects:\n\n\nInstructions:\n- Answer about skills, projects, resume, career goals\n- Suggest selecting a project for deep explanation\n" :=
  claim_C10 emptyProfile (some "X") rfl

end PortfolioChatbot
